import Mathlib

/-!
Shallow embedding of the sync worker in `src/main.py` (FastAPI worker that
pulls spreadsheet rows, normalizes them, and upserts them into a `deposits`
table), together with proofs about the embedded definitions.

Modelling conventions, fixed once here:
* Python scalar values that flow through the row pipeline are modelled by
  the inductive type `PyVal` (None, str, int, float, NaT, list, dict).
  Python floats are modelled as exact rationals plus explicit NaN / ±Inf
  constructors; binary floating-point rounding is not modelled (all
  amounts in the program come from decimal strings).
* `hashlib.md5(...).hexdigest()` followed by `uuid.uuid5(NAMESPACE_DNS, ...)`
  is a deterministic composition of maps that are injective on the inputs
  this program feeds them (modulo hash collisions).  The model takes the
  digest to be the preimage string itself: `generar_id_unico` returns the
  exact formatted string that `main.py` line 65 feeds to `hashlib.md5`,
  and the derived `record_id` is that string.
* pandas / numpy library behaviour (`pd.isna`, `pd.to_numeric`,
  `pd.to_datetime(..., unit='s')`, `str.strip`) is modelled element-wise by
  executable Lean functions; `pd.to_numeric` column-dtype promotion
  (a whole column becoming float64 when one cell is NaN) is modelled
  element-wise, and scientific-notation float syntax is omitted.
* Timestamps (`cycle_start_time`, `updated_at`) are ISO strings in the
  program, compared chronologically by the store; the model uses `Nat`
  epoch values with `<` for that comparison.
* The Supabase store is external to the repository; its bulk upsert
  (`on_conflict="id"`) and conditional update (`.eq`/`.eq`/`.lt` filters,
  main.py lines 203-214) are modelled as pure functions on a list of
  stored records, per the external-interface contract in the spec (§6).
-/

/-- Python float payloads: NaN, signed infinity, or a finite value
(modelled as an exact rational). -/
inductive PyFloat where
  | nan : PyFloat
  | inf : Bool → PyFloat
  | val : Rat → PyFloat
deriving DecidableEq, Repr

/-- Python values that appear in the row pipeline of `main.py`:
`None`, `str`, `int` (plain or numpy), `float` (plain or numpy),
pandas' `NaT`/`NA` missing sentinel, lists and string-keyed dicts. -/
inductive PyVal where
  | none : PyVal
  | str : String → PyVal
  | int : Int → PyVal
  | float : PyFloat → PyVal
  | naT : PyVal
  | list : List PyVal → PyVal
  | dict : List (String × PyVal) → PyVal
deriving Repr

/-- `pd.isna` on a scalar: true for `None`, float NaN and `NaT`/`NA`. -/
def pyIsNa : PyVal → Bool
  | .none => true
  | .naT => true
  | .float .nan => true
  | _ => false

mutual

/-- `sanitize_for_json` (main.py lines 36-51): floats have NaN/Inf turned
into `None`; dicts and lists are sanitized recursively; numpy ints/floats
collapse to plain ints/floats (our model has a single int/float already);
any remaining `pd.isna` value becomes `None`; everything else passes
through unchanged. -/
def sanitize_for_json : PyVal → PyVal
  | .float .nan => .none
  | .float (.inf _) => .none
  | .float (.val q) => .float (.val q)
  | .dict xs => .dict (sanitizeEntries xs)
  | .list xs => .list (sanitizeElems xs)
  | .naT => .none
  | .none => .none
  | .str s => .str s
  | .int n => .int n

/-- Elementwise sanitization of a Python list. -/
def sanitizeElems : List PyVal → List PyVal
  | [] => []
  | v :: vs => sanitize_for_json v :: sanitizeElems vs

/-- Valuewise sanitization of a Python dict (keys untouched). -/
def sanitizeEntries : List (String × PyVal) → List (String × PyVal)
  | [] => []
  | (k, v) :: vs => (k, sanitize_for_json v) :: sanitizeEntries vs

end

mutual

/-- A value is JSON-clean when no NaN, Infinity or NaT sentinel occurs at
any depth (`None`, i.e. JSON null, is clean). -/
def isClean : PyVal → Bool
  | .float .nan => false
  | .float (.inf _) => false
  | .naT => false
  | .dict xs => isCleanEntries xs
  | .list xs => isCleanElems xs
  | _ => true

/-- All elements of a list are JSON-clean. -/
def isCleanElems : List PyVal → Bool
  | [] => true
  | v :: vs => isClean v && isCleanElems vs

/-- All values of a dict are JSON-clean. -/
def isCleanEntries : List (String × PyVal) → Bool
  | [] => true
  | (_, v) :: vs => isClean v && isCleanEntries vs

end

mutual

/-- The container skeleton of a value: every scalar is collapsed to
`.none`, lists and dicts keep their spine (and dict keys). -/
def shapeOf : PyVal → PyVal
  | .dict xs => .dict (shapeEntries xs)
  | .list xs => .list (shapeElems xs)
  | _ => .none

/-- Skeletons of the elements of a list. -/
def shapeElems : List PyVal → List PyVal
  | [] => []
  | v :: vs => shapeOf v :: shapeElems vs

/-- Skeletons of the values of a dict. -/
def shapeEntries : List (String × PyVal) → List (String × PyVal)
  | [] => []
  | (k, v) :: vs => (k, shapeOf v) :: shapeEntries vs

end

mutual

theorem sanitize_for_json_isClean : (v : PyVal) → isClean (sanitize_for_json v) = true
  | .float .nan => rfl
  | .float (.inf _) => rfl
  | .float (.val _) => rfl
  | .dict xs => by
      simpa [sanitize_for_json, isClean] using sanitizeEntries_isClean xs
  | .list xs => by
      simpa [sanitize_for_json, isClean] using sanitizeElems_isClean xs
  | .naT => rfl
  | .none => rfl
  | .str _ => rfl
  | .int _ => rfl

theorem sanitizeElems_isClean : (xs : List PyVal) → isCleanElems (sanitizeElems xs) = true
  | [] => rfl
  | v :: vs => by
      simp [sanitizeElems, isCleanElems, sanitize_for_json_isClean v, sanitizeElems_isClean vs]

theorem sanitizeEntries_isClean :
    (xs : List (String × PyVal)) → isCleanEntries (sanitizeEntries xs) = true
  | [] => rfl
  | (k, v) :: vs => by
      simp [sanitizeEntries, isCleanEntries, sanitize_for_json_isClean v,
        sanitizeEntries_isClean vs]

end

mutual

theorem sanitize_for_json_shape : (v : PyVal) → shapeOf (sanitize_for_json v) = shapeOf v
  | .float .nan => rfl
  | .float (.inf _) => rfl
  | .float (.val _) => rfl
  | .dict xs => by
      simp [sanitize_for_json, shapeOf, sanitizeEntries_shape xs]
  | .list xs => by
      simp [sanitize_for_json, shapeOf, sanitizeElems_shape xs]
  | .naT => rfl
  | .none => rfl
  | .str _ => rfl
  | .int _ => rfl

theorem sanitizeElems_shape : (xs : List PyVal) → shapeElems (sanitizeElems xs) = shapeElems xs
  | [] => rfl
  | v :: vs => by
      simp [sanitizeElems, shapeElems, sanitize_for_json_shape v, sanitizeElems_shape vs]

theorem sanitizeEntries_shape :
    (xs : List (String × PyVal)) → shapeEntries (sanitizeEntries xs) = shapeEntries xs
  | [] => rfl
  | (k, v) :: vs => by
      simp [sanitizeEntries, shapeEntries, sanitize_for_json_shape v, sanitizeEntries_shape vs]

end

/-! ## String and number primitives (Python / pandas behaviour) -/

/-- Characters stripped by Python's `str.strip()` with no argument. -/
def isPySpace (c : Char) : Bool :=
  c == ' ' || c == '\t' || c == '\n' || c == '\r' || c == '\x0b' || c == '\x0c'

/-- Python `str.strip()`: drop leading and trailing whitespace. -/
def pyStrip (s : String) : String :=
  String.mk (((s.toList.dropWhile isPySpace).reverse.dropWhile isPySpace).reverse)

/-- `.str.replace(',', '')` (main.py line 127): remove every comma. -/
def stripCommas (s : String) : String :=
  String.mk (s.toList.filter (fun c => c != ','))

/-- Value of a list of decimal digits. -/
def digitsToNat (ds : List Char) : Nat :=
  ds.foldl (fun a c => a * 10 + (c.toNat - 48)) 0

/-- Scalar model of `pd.to_numeric` string parsing: optional sign, digits,
optional decimal point and fraction digits; integer syntax yields an int
(int64 column), decimal syntax a float.  Scientific notation is omitted
(never produced by the sheets this program reads). -/
def parseDecimal (s : String) : Option PyVal :=
  let cs := (pyStrip s).toList
  let signed : Bool × List Char :=
    match cs with
    | '-' :: t => (true, t)
    | '+' :: t => (false, t)
    | t => (false, t)
  let neg := signed.1
  let intPart := signed.2.takeWhile (fun c => c.isDigit)
  let rest := signed.2.dropWhile (fun c => c.isDigit)
  match rest with
  | [] =>
      if intPart.isEmpty then Option.none
      else
        let n : Int := (digitsToNat intPart : Int)
        some (.int (if neg then -n else n))
  | '.' :: frac =>
      if frac.all (fun c => c.isDigit) && !(intPart.isEmpty && frac.isEmpty) then
        let num : Int := (digitsToNat intPart : Int) * 10 ^ frac.length + (digitsToNat frac : Int)
        some (.float (.val (mkRat (if neg then -num else num) (10 ^ frac.length))))
      else Option.none
  | _ => Option.none

/-- `pd.to_numeric(..., errors='coerce')` on one cell: strings are parsed
(failure gives NaN), numbers pass through, anything else coerces to NaN. -/
def to_numeric : PyVal → PyVal
  | .str s =>
      match parseDecimal s with
      | some v => v
      | _ => .float .nan
  | .int n => .int n
  | .float f => .float f
  | _ => .float .nan

/-- Smallest `k ≤ fuel` with `den ∣ 10^k` (fuel-bounded search). -/
def decExpAux (den : Nat) : Nat → Nat → Nat
  | k, 0 => k
  | k, fuel + 1 => if 10 ^ k % den == 0 then k else decExpAux den (k + 1) fuel

/-- Decimal exponent of a terminating rational's denominator. -/
def decExp (den : Nat) : Nat := decExpAux den 0 64

/-- Left-pad a string with zeros to width `k`. -/
def padZeros (s : String) (k : Nat) : String :=
  String.mk (List.replicate (k - s.length) '0') ++ s

/-- Python `str()` of a finite float, for the decimal values this program
produces (shortest decimal form, whole floats printed with `.0`). -/
def floatStr (q : Rat) : String :=
  if q.den == 1 then toString q.num ++ ".0"
  else
    let k := decExp q.den
    let scaled := q.num.natAbs * 10 ^ k / q.den
    (if q.num < 0 then "-" else "")
      ++ toString (scaled / 10 ^ k) ++ "." ++ padZeros (toString (scaled % 10 ^ k)) k

/-- Python `str()` of a pipeline scalar.  Lists/dicts never reach the
`str()` call sites in the row loop (cells are scalars); a placeholder
keeps the function total. -/
def pyStr : PyVal → String
  | .none => "None"
  | .str s => s
  | .int n => toString n
  | .float .nan => "nan"
  | .float (.inf false) => "inf"
  | .float (.inf true) => "-inf"
  | .float (.val q) => floatStr q
  | .naT => "NaT"
  | .list _ => "<list>"
  | .dict _ => "<dict>"

/-- Python truthiness of a pipeline scalar (`x or 0` at main.py line 160). -/
def pyTruthy : PyVal → Bool
  | .none => false
  | .str s => s != ""
  | .int n => n != 0
  | .float (.val q) => q.num != 0
  | .float .nan => true
  | .float (.inf _) => true
  | .naT => true
  | .list xs => !xs.isEmpty
  | .dict xs => !xs.isEmpty

/-- Python `a or b`. -/
def pyOr (a b : PyVal) : PyVal := if pyTruthy a then a else b

/-! ## Calendar rendering (`pd.to_datetime(..., unit='s')` + `strftime`) -/

/-- Two-digit zero-padded decimal. -/
def pad2 (n : Nat) : String := if n < 10 then "0" ++ toString n else toString n

/-- Four-digit zero-padded decimal (`%Y`). -/
def pad4 (n : Nat) : String :=
  if n < 10 then "000" ++ toString n
  else if n < 100 then "00" ++ toString n
  else if n < 1000 then "0" ++ toString n
  else toString n

/-- Proleptic Gregorian civil date from days since 1970-01-01
(Hinnant's `civil_from_days` algorithm, as used by all date libraries). -/
def civilFromDays (z0 : Int) : Int × Nat × Nat :=
  let z := z0 + 719468
  let era := Int.fdiv z 146097
  let doe := (z - era * 146097).toNat
  let yoe := (doe - doe / 1460 + doe / 36524 - doe / 146097) / 365
  let doy := doe - (365 * yoe + yoe / 4 - yoe / 100)
  let mp := (5 * doy + 2) / 153
  let d := doy - (153 * mp + 2) / 5 + 1
  let m := if mp < 10 then mp + 3 else mp - 9
  let y := era * 400 + yoe + (if m ≤ 2 then 1 else 0)
  (y, m, d)

/-- `strftime('%Y-%m-%d %H:%M:%S%z')` of an epoch-second instant; the
datetimes built at main.py line 131 are timezone-naive, so `%z` renders
as the empty string. -/
def formatIso (n : Int) : String :=
  let days := Int.fdiv n 86400
  let secs := (n - days * 86400).toNat
  let ymd := civilFromDays days
  pad4 ymd.1.toNat ++ "-" ++ pad2 ymd.2.1 ++ "-" ++ pad2 ymd.2.2 ++ " "
    ++ pad2 (secs / 3600) ++ ":" ++ pad2 (secs / 60 % 60) ++ ":" ++ pad2 (secs % 60)

/-- `datetime64[ns]` representable range, in whole seconds. -/
def epochInRange (n : Int) : Bool := -9223372036 ≤ n && n ≤ 9223372036

/-- main.py lines 129-132 for one cell: numeric parse of `DATE POSTED`
(coerce), epoch-seconds to datetime (coerce, NaT outside the ns range),
`strftime`, with NaT becoming null.  Fractional epochs keep only the
whole-second part in the `%S` field (floor). -/
def datePostedIso (v : PyVal) : PyVal :=
  match to_numeric v with
  | .int n => if epochInRange n then .str (formatIso n) else .none
  | .float (.val q) => if epochInRange q.floor then .str (formatIso q.floor) else .none
  | _ => .none

/-! ## Rows and the per-row pipeline (main.py lines 112-196) -/

/-- A DataFrame row as pandas hands it to the loop: column name to cell
value, in column order.  Cells fetched from the sheet are strings; cells
missing because a source row was shorter than the header are `None`. -/
abbrev Row := List (String × PyVal)

/-- `row.get(k)` (no default): the value under `k`, or `None`. -/
def rowGet (r : Row) (k : String) : PyVal :=
  match r.find? (fun kv => kv.1 == k) with
  | some kv => kv.2
  | _ => .none

/-- `row.get(k, dflt)`. -/
def rowGetD (r : Row) (k : String) (dflt : PyVal) : PyVal :=
  match r.find? (fun kv => kv.1 == k) with
  | some kv => kv.2
  | _ => dflt

/-- `k in row` for a pandas row (index membership). -/
def rowHas (r : Row) (k : String) : Bool := r.any (fun kv => kv.1 == k)

/-- Is the value Python `None`? (`amount_val is None`, main.py line 147). -/
def pyIsNone : PyVal → Bool
  | .none => true
  | _ => false

/-- `limpiar_valor` (main.py lines 53-62): `pd.isna` values become `None`;
blank strings become `None`; float NaN/Inf become `None`; ints and floats
stay numeric; everything else passes through. -/
def limpiar_valor : PyVal → PyVal
  | .none => .none
  | .naT => .none
  | .float .nan => .none
  | .str s => if pyStrip s == "" then .none else .str s
  | .float (.inf _) => .none
  | .float (.val q) => .float (.val q)
  | .int n => .int n
  | .list xs => .list xs
  | .dict xs => .dict xs

/-- `generar_id_unico` (main.py lines 64-66): the identity string fed to
the digest, built from brand, `DEPOSIT ID`, `USERNAME`, `AMOUNT` and
`DATE POSTED` joined with underscores.  The md5/uuid5 digest step is
modelled as the identity map (see the header comment), so this string is
the record id. -/
def generar_id_unico (row : Row) (brand : String) : String :=
  brand ++ "_" ++ pyStr (rowGet row "DEPOSIT ID") ++ "_" ++ pyStr (rowGet row "USERNAME")
    ++ "_" ++ pyStr (rowGet row "AMOUNT") ++ "_" ++ pyStr (rowGet row "DATE POSTED")

/-- `username` loop local (main.py line 145). -/
def usernameOf (row : Row) : String := pyStrip (pyStr (rowGetD row "USERNAME" (.str "")))

/-- `amount_val` loop local (main.py line 146). -/
def amountValOf (row : Row) : PyVal := rowGet row "AMOUNT"

/-- `is_amount_empty` (main.py line 147): `pd.isna(amount_val) or
amount_val is None`. -/
def is_amount_empty (row : Row) : Bool :=
  pyIsNa (amountValOf row) || pyIsNone (amountValOf row)

/-- The junk filter (main.py line 149): actor textually absent AND amount
empty. -/
def isJunkRow (row : Row) : Bool :=
  (usernameOf row == "" || usernameOf row == "None" || usernameOf row == "nan")
    && is_amount_empty row

/-- `amount_final` (main.py line 160): `limpiar_valor(amount_val) or 0`. -/
def amount_final_of (row : Row) : PyVal := pyOr (limpiar_valor (amountValOf row)) (.int 0)

/-- `date_iso_final` (main.py line 161). -/
def date_iso_final_of (row : Row) : PyVal := rowGet row "date_posted_iso"

/-- `constraint_signature` (main.py line 166):
`f"{sheet_name}|{username}|{amount_final}|{date_iso_final}"`. -/
def constraint_signature (brand : String) (row : Row) : String :=
  brand ++ "|" ++ usernameOf row ++ "|" ++ pyStr (amount_final_of row)
    ++ "|" ++ pyStr (date_iso_final_of row)

/-- `posted_final` (main.py line 175). -/
def posted_final_of (row : Row) : PyVal :=
  if rowHas row "DATE POSTED" then limpiar_valor (to_numeric (rowGet row "DATE POSTED"))
  else .none

/-- The upserted record shape (main.py lines 179-192).  `updated_at` is
`datetime.now(timezone.utc)` at build time, modelled as the cycle's `now`
epoch value. -/
structure Record where
  id : String
  deposit_id : String
  brand : String
  username : String
  amount : PyVal
  status : String
  deposit_date_user : String
  date_posted_unix : PyVal
  date_posted_iso : PyVal
  pg_assign : String
  raw_json : List (String × PyVal)
  updated_at : Nat
deriving Repr

/-- Build the dict appended to `records_to_upload` (main.py 179-193). -/
def buildRecord (brand : String) (now : Nat) (row : Row) : Record :=
  { id := generar_id_unico row brand
    deposit_id := pyStrip (pyStr (rowGetD row "DEPOSIT ID" (.str "")))
    brand := brand
    username := usernameOf row
    amount := amount_final_of row
    status := pyStrip (pyStr (rowGetD row "Status" (.str "")))
    deposit_date_user := pyStr (rowGetD row "DEPOSIT DATE" (.str ""))
    date_posted_unix := posted_final_of row
    date_posted_iso := date_iso_final_of row
    pg_assign := pyStr (rowGetD row "PG ASSIGN" (.str ""))
    raw_json := row.map (fun kv => (kv.1, limpiar_valor kv.2))
    updated_at := now }

/-- The row loop of main.py lines 142-196, carrying `seen_ids` and
`seen_constraints`: junk rows are skipped; a row whose generated id was
already seen is skipped; otherwise the id is recorded, and the row is
skipped if its constraint signature was already seen (the id stays
recorded), else the record is appended. -/
def process_rows_go (brand : String) (now : Nat) :
    List Row → List String → List String → List Record
  | [], _, _ => []
  | row :: rest, seen_ids, seen_constraints =>
      if isJunkRow row then process_rows_go brand now rest seen_ids seen_constraints
      else if seen_ids.contains (generar_id_unico row brand) then
        process_rows_go brand now rest seen_ids seen_constraints
      else if seen_constraints.contains (constraint_signature brand row) then
        process_rows_go brand now rest (generar_id_unico row brand :: seen_ids) seen_constraints
      else
        buildRecord brand now row ::
          process_rows_go brand now rest (generar_id_unico row brand :: seen_ids)
            (constraint_signature brand row :: seen_constraints)

/-- `records_to_upload` for one partition's prepared rows. -/
def process_rows (brand : String) (now : Nat) (rows : List Row) : List Record :=
  process_rows_go brand now rows [] []

/-! ## Sheet preparation (main.py lines 112-134) -/

/-- `final_headers` (main.py line 120): strip each header, blank headers
become `col_extra_<j>`. -/
def final_headers (original : List String) : List String :=
  original.enum.map (fun jh => if pyStrip jh.2 == "" then "col_extra_" ++ toString jh.1
    else pyStrip jh.2)

/-- One DataFrame row from one source row: header-indexed cells, short
rows padded with `None` (pandas' missing fill for object columns). -/
def buildRow (headers : List String) (cells : List String) : Row :=
  headers.enum.map (fun jh =>
    (jh.2, match cells.get? jh.1 with
           | some c => PyVal.str c
           | _ => PyVal.none))

/-- One cell of the AMOUNT column rewrite (main.py lines 126-127):
`pd.to_numeric(df['AMOUNT'].astype(str).str.replace(',', ''), errors='coerce')`. -/
def normalizeAmountCell (v : PyVal) : PyVal :=
  to_numeric (.str (stripCommas (pyStr v)))

/-- The AMOUNT column rewrite, applied when the sheet has an `AMOUNT`
column. -/
def amountTransformRow (hasAmount : Bool) (row : Row) : Row :=
  if hasAmount then
    row.map (fun kv => if kv.1 == "AMOUNT" then (kv.1, normalizeAmountCell kv.2) else kv)
  else row

/-- The derived `date_posted_iso` column (main.py lines 129-134): from
`DATE POSTED` when that column exists, else `None`. -/
def addIsoColumn (hasDatePosted : Bool) (row : Row) : Row :=
  row ++ [("date_posted_iso",
    if hasDatePosted then datePostedIso (rowGet row "DATE POSTED") else PyVal.none)]

/-- DataFrame preparation for one sheet's data rows. -/
def prepRows (headers : List String) (dataRows : List (List String)) : List Row :=
  let hasAmount := headers.contains "AMOUNT"
  let hasDatePosted := headers.contains "DATE POSTED"
  dataRows.map (fun cells =>
    addIsoColumn hasDatePosted (amountTransformRow hasAmount (buildRow headers cells)))

/-- Everything main.py lines 112-196 does to one sheet's `values`: skip
sheets with fewer than two rows (line 116); pop the header row; a source
row wider than the header makes the DataFrame constructor raise, which
the per-sheet handler (line 223) turns into a skip; otherwise prepare the
rows and run the dedup loop. -/
def processSheet (brand : String) (values : List (List String)) (now : Nat) : List Record :=
  match values with
  | original_headers :: dataRows =>
      if dataRows.length < 1 then []
      else if dataRows.any
          (fun cells => (final_headers original_headers).length < cells.length) then []
      else process_rows brand now (prepRows (final_headers original_headers) dataRows)
  | _ => []

/-! ## The external store (spec §6 interface, invoked at main.py 198-214) -/

/-- `sanitize_for_json(records_to_upload)` restricted to one record: the
dict's values are sanitized (strings and the id pass through unchanged;
the numeric and json fields are the ones sanitization can affect). -/
def sanitizeRecord (r : Record) : Record :=
  { r with
    amount := sanitize_for_json r.amount
    date_posted_unix := sanitize_for_json r.date_posted_unix
    date_posted_iso := sanitize_for_json r.date_posted_iso
    raw_json := sanitizeEntries r.raw_json }

/-- Modelled from the spec: the store's bulk upsert keyed on `id`
(§6 "insert-if-absent / overwrite-if-present"), one record at a time as
`upsert(..., on_conflict="id", ignore_duplicates=False)` behaves. -/
def storeUpsertOne (store : List Record) (r : Record) : List Record :=
  if store.any (fun s => s.id == r.id) then
    store.map (fun s => if s.id == r.id then r else s)
  else store ++ [r]

/-- Bulk upsert of a batch, in batch order. -/
def storeUpsert (batch : List Record) (store : List Record) : List Record :=
  batch.foldl storeUpsertOne store

/-- The swept form of a stored record: `{"status": "CLEARED_AUTO"}`. -/
def clearedRecord (r : Record) : Record := { r with status := "CLEARED_AUTO" }

/-- The sweep filter (main.py lines 210-213): same brand, status
`ALREADY FOLLOW UP`, `updated_at` strictly before the cycle start. -/
def sweepHits (brand : String) (cycleStart : Nat) (r : Record) : Bool :=
  r.brand == brand && r.status == "ALREADY FOLLOW UP" && r.updated_at < cycleStart

/-- Modelled from the spec: the store's conditional bulk update (§6) with
the filters of main.py lines 210-214 — every matching record's status
becomes `CLEARED_AUTO`, every other record is untouched. -/
def storeSweep (brand : String) (cycleStart : Nat) (store : List Record) : List Record :=
  store.map (fun r => if sweepHits brand cycleStart r then clearedRecord r else r)

/-! ## Orchestrator and HTTP trigger (main.py lines 69-254) -/

/-- Store operations a cycle performs, in order. -/
inductive Effect where
  | fetch : Effect
  | upsertOp : String → Nat → Effect
  | sweepOp : String → Effect
deriving DecidableEq, Repr

/-- main.py lines 198-214 for one sheet: nothing is issued when
`records_to_upload` is empty; otherwise the sanitized batch is upserted
and then the sweep update runs (store calls modelled as succeeding). -/
def perSheetStore (brand : String) (values : List (List String)) (now cycleStart : Nat)
    (store : List Record) : List Record × List Effect :=
  let batch := processSheet brand values now
  if batch.isEmpty then (store, [])
  else
    let safe := batch.map sanitizeRecord
    (storeSweep brand cycleStart (storeUpsert safe store),
      [.upsertOp brand safe.length, .sweepOp brand])

/-- `last_execution_info` (main.py lines 29-33). -/
structure CycleState where
  status : String
  last_run : String
  records_processed : Nat
deriving DecidableEq, Repr

/-- Startup value of the shared state. -/
def initialCycleState : CycleState :=
  { status := "Idle", last_run := "Nunca", records_processed := 0 }

/-- `SHEET_NAMES` (main.py line 23). -/
def SHEET_NAMES : List String := ["M1", "M2", "B1", "B2", "K1", "B3", "B4"]

/-- Cycle environment: what the external world answers this cycle. -/
structure SyncEnv where
  credentialsExist : Bool
  supabaseConfigured : Bool
  fetchOk : Bool
  valueRanges : List (List (List String))
deriving Repr

/-- `run_sync_process` (main.py lines 69-229) as a state transition:
given the environment, the shared state, the captured `cycle_start_time`,
the wall clock `now` used for `updated_at`, and the store, produce the
new shared state, the new store, and the store effects issued.  The
`Running` guard (line 72) returns with nothing touched; the error
returns (lines 85, 92, 102) leave `last_run`/`records_processed` as they
were; the success path resets the state to Idle with the new run time
and total (lines 226-228). -/
def run_sync_process (env : SyncEnv) (st : CycleState) (cycleStart now : Nat)
    (store : List Record) : CycleState × List Record × List Effect :=
  if st.status == "Running" then (st, store, [])
  else if !env.credentialsExist then ({ st with status := "Error: No credentials" }, store, [])
  else if !env.supabaseConfigured then ({ st with status := "Error: Env Vars" }, store, [])
  else if !env.fetchOk then ({ st with status := "Error Google API" }, store, [.fetch])
  else
    let folded := (SHEET_NAMES.zip env.valueRanges).foldl
      (fun acc p =>
        let step := perSheetStore p.1 p.2 now cycleStart acc.2.1
        (acc.1 + (processSheet p.1 p.2 now).length, step.1, acc.2.2 ++ step.2))
      (0, store, [Effect.fetch])
    ({ status := "Idle", last_run := toString now, records_processed := folded.1 },
      folded.2.1, folded.2.2)

/-- What `/trigger-sync` (main.py lines 249-254) decides. -/
inductive TriggerOutcome where
  | unauthorized : TriggerOutcome
  | busy : TriggerOutcome
  | enqueued : TriggerOutcome
deriving DecidableEq, Repr

/-- `trigger_sync`: 401 when the supplied secret differs from
`CRON_SECRET` (both optional), a log-and-return when a cycle is marked
running, otherwise the background task is enqueued. -/
def trigger_sync (secret cronSecret : Option String) (st : CycleState) : TriggerOutcome :=
  if secret != cronSecret then .unauthorized
  else if st.status == "Running" then .busy
  else .enqueued

/-! ## Helper lemmas about the row loop -/

/-- The constraint signature recomputed from an upserted record's own
fields (brand, username, amount, date_posted_iso). -/
def recordSig (r : Record) : String :=
  r.brand ++ "|" ++ r.username ++ "|" ++ pyStr r.amount ++ "|" ++ pyStr r.date_posted_iso

theorem recordSig_buildRecord (b : String) (n : Nat) (row : Row) :
    recordSig (buildRecord b n row) = constraint_signature b row := rfl

theorem mem_process_rows_go_updated_at (b : String) (n : Nat) :
    ∀ (rows : List Row) (ids sigs : List String) (rec : Record),
      rec ∈ process_rows_go b n rows ids sigs → rec.updated_at = n := by
  intro rows
  induction rows with
  | nil => intro ids sigs rec h; simp [process_rows_go] at h
  | cons r rs ih =>
      intro ids sigs rec h
      rw [process_rows_go] at h
      split at h
      · exact ih ids sigs rec h
      · split at h
        · exact ih ids sigs rec h
        · split at h
          · exact ih _ sigs rec h
          · rcases List.mem_cons.mp h with h | h
            · rw [h]; rfl
            · exact ih _ _ rec h

theorem process_rows_go_map_id_time_indep (b : String) (n1 n2 : Nat) :
    ∀ (rows : List Row) (ids sigs : List String),
      (process_rows_go b n1 rows ids sigs).map Record.id
        = (process_rows_go b n2 rows ids sigs).map Record.id := by
  intro rows
  induction rows with
  | nil => intro ids sigs; rfl
  | cons r rs ih =>
      intro ids sigs
      rw [process_rows_go, process_rows_go]
      split
      · exact ih ids sigs
      · split
        · exact ih ids sigs
        · split
          · exact ih _ sigs
          · simp only [List.map_cons, ih _ _]
            rfl

theorem process_rows_go_sig_invariant (b : String) (n : Nat) :
    ∀ (rows : List Row) (ids sigs : List String),
      ((process_rows_go b n rows ids sigs).map recordSig).Nodup
      ∧ ∀ s ∈ (process_rows_go b n rows ids sigs).map recordSig, s ∉ sigs := by
  intro rows
  induction rows with
  | nil => intro ids sigs; simp [process_rows_go]
  | cons r rs ih =>
      intro ids sigs
      rw [process_rows_go]
      split
      · exact ih ids sigs
      · split
        · exact ih ids sigs
        · split
          · exact ih _ sigs
          · rename_i hjunk hid hsig
            have hnotmem : constraint_signature b r ∉ sigs := by
              intro hmem
              exact hsig (List.elem_iff.mpr hmem)
            obtain ⟨ihnodup, ihfresh⟩ := ih (generar_id_unico r b :: ids) (constraint_signature b r :: sigs)
            constructor
            · simp only [List.map_cons, List.nodup_cons, recordSig_buildRecord]
              constructor
              · intro hmem
                exact (ihfresh _ hmem) (List.mem_cons_self _ _)
              · exact ihnodup
            · intro s hs
              simp only [List.map_cons, recordSig_buildRecord] at hs
              rcases List.mem_cons.mp hs with h | h
              · rw [h]; exact hnotmem
              · intro hmem
                exact (ihfresh s h) (List.mem_cons_of_mem _ hmem)

/-! ## Claim theorems -/

/-- C7: `sanitize_for_json` is total on the Normalizer's output domain —
it is a total Lean function on `PyVal` (so it returns without raising for
every such structure), the result contains no NaN, Infinity or
missing-value sentinel at any depth (each was replaced by null), and the
container structure of the input is preserved. -/
theorem C7_sanitize_total (v : PyVal) :
    isClean (sanitize_for_json v) = true ∧ shapeOf (sanitize_for_json v) = shapeOf v :=
  ⟨sanitize_for_json_isClean v, sanitize_for_json_shape v⟩

/-- C5: identity resolution is deterministic — `generar_id_unico` is a
pure function, so computing it twice on equal inputs yields the identical
key string, and the resolved ids of a batch do not depend on the cycle
wall-clock time fed into record construction (no random or
time-dependent component). -/
theorem C5_identity_resolution_deterministic :
    (∀ (row : Row) (brand : String), generar_id_unico row brand = generar_id_unico row brand)
    ∧ (∀ (brand : String) (now1 now2 : Nat) (rows : List Row),
        (process_rows brand now1 rows).map Record.id
          = (process_rows brand now2 rows).map Record.id) :=
  ⟨fun _ _ => rfl, fun b n1 n2 rows => process_rows_go_map_id_time_indep b n1 n2 rows [] []⟩

/-- Two concrete fetched rows, differing only in the user-entered
`DEPOSIT ID` display identifier, as the pipeline prepares them. -/
def c1Rows : List Row :=
  prepRows (final_headers ["DEPOSIT ID", "USERNAME", "AMOUNT", "DATE POSTED", "Status"])
    [["123", "john", "1,200.50", "1700000000", "PENDING"],
     ["124", "john", "1,200.50", "1700000000", "PENDING"]]

/-- C1 counterexample: the two rows of `c1Rows` have identical normalized
(partition, actor, amount, posted_at_iso) tuples — their constraint
signatures coincide — yet `generar_id_unico` assigns them different
identity keys, because the key string includes the display identifier. -/
theorem C1_counterexample :
    c1Rows.map (constraint_signature "M1")
      = ["M1|john|1200.5|2023-11-14 22:13:20", "M1|john|1200.5|2023-11-14 22:13:20"]
    ∧ c1Rows.map (fun r => generar_id_unico r "M1")
      = ["M1_123_john_1200.5_1700000000", "M1_124_john_1200.5_1700000000"]
    ∧ ("M1_123_john_1200.5_1700000000" : String) ≠ "M1_124_john_1200.5_1700000000" := by
  refine ⟨by decide, by decide, by decide⟩

/-- C1 amended: the identity key is a pure function of the raw tuple
(partition, DEPOSIT ID, USERNAME, AMOUNT, DATE POSTED) — rows agreeing on
all of them (display identifier included) receive the same key — and
within one cycle the separate content filter guarantees that the batch
never carries two records with the same normalized
(partition, actor, amount, posted_at_iso) signature. -/
theorem C1_amended :
    (∀ (row1 row2 : Row) (brand : String),
        pyStr (rowGet row1 "DEPOSIT ID") = pyStr (rowGet row2 "DEPOSIT ID") →
        pyStr (rowGet row1 "USERNAME") = pyStr (rowGet row2 "USERNAME") →
        pyStr (rowGet row1 "AMOUNT") = pyStr (rowGet row2 "AMOUNT") →
        pyStr (rowGet row1 "DATE POSTED") = pyStr (rowGet row2 "DATE POSTED") →
        generar_id_unico row1 brand = generar_id_unico row2 brand)
    ∧ (∀ (brand : String) (now : Nat) (rows : List Row),
        ((process_rows brand now rows).map recordSig).Nodup) :=
  ⟨fun r1 r2 b h1 h2 h3 h4 => by simp [generar_id_unico, h1, h2, h3, h4],
   fun b n rows => (process_rows_go_sig_invariant b n rows [] []).1⟩

/-- A row with display id 9 and status A. -/
def c1wRowA : Row := [("DEPOSIT ID", .str "9"), ("USERNAME", .str "jo"), ("Status", .str "A")]

/-- The same row content with status B only. -/
def c1wRowB : Row := [("DEPOSIT ID", .str "9"), ("USERNAME", .str "jo"), ("Status", .str "B")]

/-- Witness for C1_amended at two concrete rows agreeing on the five raw
key fields. -/
theorem C1_amended_witness :
    generar_id_unico c1wRowA "M1" = generar_id_unico c1wRowB "M1" :=
  C1_amended.1 c1wRowA c1wRowB "M1" rfl rfl rfl rfl

/-- A two-row sheet whose rows agree on every identity field and differ
in `Status` only (PENDING first, DONE second, in source order). -/
def c2Values : List (List String) :=
  [["DEPOSIT ID", "USERNAME", "AMOUNT", "DATE POSTED", "Status"],
   ["7", "john", "100", "1700000000", "PENDING"],
   ["7", "john", "100", "1700000000", "DONE"]]

/-- The prepared rows of `c2Values`. -/
def c2Rows : List Row := prepRows (final_headers (c2Values.headI)) (c2Values.tail)

/-- C2 counterexample: both rows of `c2Values` resolve to the same
identity key and carry different `Status` values, but the deduplicated
batch keeps the EARLIER row's status (`PENDING`), not the later row's
(`DONE`): the loop is first-write-wins, not last-write-wins. -/
theorem C2_counterexample :
    c2Rows.map (fun r => generar_id_unico r "M1")
      = ["M1_7_john_100_1700000000", "M1_7_john_100_1700000000"]
    ∧ c2Rows.map (fun r => pyStrip (pyStr (rowGetD r "Status" (.str ""))))
      = ["PENDING", "DONE"]
    ∧ (processSheet "M1" c2Values 5).map Record.status = ["PENDING"] := by
  refine ⟨by decide, by decide, by decide⟩

/-- C2 amended: for a partition batch of two rows in source order that
resolve to the same identity key, the deduplicated batch contains exactly
one record for that key, and that record's fields are the FIRST row's
fields (first-write-wins: the later duplicate is skipped by the
`seen_ids` check). -/
theorem C2_amended (brand : String) (now : Nat) (r1 r2 : Row)
    (hk : generar_id_unico r1 brand = generar_id_unico r2 brand)
    (hj : isJunkRow r1 = false) :
    process_rows brand now [r1, r2] = [buildRecord brand now r1] := by
  by_cases h2 : isJunkRow r2 = true
  · simp [process_rows, process_rows_go, hj, h2]
  · simp [process_rows, process_rows_go, hj, h2, ← hk]

/-- Witness rows for C2_amended: identical identity fields, different
status. -/
def c2wRowA : Row := [("DEPOSIT ID", .str "7"), ("USERNAME", .str "jo"), ("Status", .str "P")]

/-- Second witness row for C2_amended. -/
def c2wRowB : Row := [("DEPOSIT ID", .str "7"), ("USERNAME", .str "jo"), ("Status", .str "D")]

/-- Witness for C2_amended at concrete rows. -/
theorem C2_amended_witness :
    process_rows "M1" 3 [c2wRowA, c2wRowB] = [buildRecord "M1" 3 c2wRowA] :=
  C2_amended "M1" 3 c2wRowA c2wRowB rfl rfl

/-- A sheet with one row whose actor is blank and whose amount is the
literal string 0. -/
def c4Values : List (List String) := [["USERNAME", "AMOUNT"], ["", "0"]]

/-- C4 counterexample: a raw row with absent actor and amount zero is NOT
dropped — it survives the junk filter (which only tests `pd.isna`) and
reaches the upserted batch and the store with username blank and amount
0. -/
theorem C4_counterexample :
    (processSheet "M1" c4Values 0).map Record.username = [""]
    ∧ (processSheet "M1" c4Values 0).map (fun r => pyStr r.amount) = ["0"]
    ∧ ((perSheetStore "M1" c4Values 0 10 []).1).map Record.username = [""] := by
  refine ⟨by decide, by decide, by decide⟩

/-- C4 amended: the rows dropped before identity resolution are exactly
the `isJunkRow` rows — actor textually absent AND amount `pd.isna`-null
(absent or unparseable); such rows contribute nothing to the batch (the
loop's output equals the output on the junk-filtered row list).  A zero
amount does not make the row empty, so an actor-absent row with amount 0
is kept. -/
theorem C4_amended (brand : String) (now : Nat) (rows : List Row) :
    process_rows brand now rows
      = process_rows brand now (rows.filter (fun r => !isJunkRow r)) := by
  suffices h : ∀ (rs : List Row) (ids sigs : List String),
      process_rows_go brand now rs ids sigs
        = process_rows_go brand now (rs.filter (fun r => !isJunkRow r)) ids sigs by
    exact h rows [] []
  intro rs
  induction rs with
  | nil => intro ids sigs; rfl
  | cons r rest ih =>
      intro ids sigs
      cases hjf : isJunkRow r with
      | true =>
          rw [process_rows_go, List.filter_cons]
          simp [hjf, ih]
      | false =>
          rw [List.filter_cons]
          simp only [hjf, Bool.not_false, if_pos]
          rw [process_rows_go, process_rows_go]
          simp [hjf, ih]

theorem limpiar_of_isNa (v : PyVal) (h : pyIsNa v = true) : limpiar_valor v = .none := by
  cases v with
  | none => rfl
  | naT => rfl
  | float f =>
      cases f with
      | nan => rfl
      | inf b => exact Bool.noConfusion h
      | val q => exact Bool.noConfusion h
  | str s => exact Bool.noConfusion h
  | int n => exact Bool.noConfusion h
  | list xs => exact Bool.noConfusion h
  | dict xs => exact Bool.noConfusion h

/-- C8: amount normalization strips commas before decimal parsing (the
cell transform is parsing of the comma-stripped string, with parse
failure coercing to NaN, which the discard check treats as null); a
`pd.isna` amount makes the row's emptiness check true while the stored
`amount_final` is the integer 0; a nonzero parsed amount is stored
unchanged (never silently a different nonzero value) and a zero amount is
stored as 0; concretely, the string 1,200.50 parses to 1200.50. -/
theorem C8_amount_normalization :
    (∀ s : String, parseDecimal (stripCommas s) = Option.none →
        normalizeAmountCell (.str s) = .float .nan)
    ∧ (∀ row : Row, pyIsNa (amountValOf row) = true →
        is_amount_empty row = true ∧ amount_final_of row = .int 0)
    ∧ (∀ q : Rat, q.num ≠ 0 →
        pyOr (limpiar_valor (.float (.val q))) (.int 0) = .float (.val q))
    ∧ (∀ n : Int, n ≠ 0 → pyOr (limpiar_valor (.int n)) (.int 0) = .int n)
    ∧ pyOr (limpiar_valor (.float (.val (mkRat 0 1)))) (.int 0) = .int 0
    ∧ normalizeAmountCell (.str "1,200.50") = .float (.val (mkRat 2401 2)) := by
  refine ⟨?_, ?_, ?_, ?_, rfl, rfl⟩
  · intro s h
    simp [normalizeAmountCell, to_numeric, pyStr, h]
  · intro row h
    refine ⟨by simp [is_amount_empty, h], ?_⟩
    simp [amount_final_of, limpiar_of_isNa _ h, pyOr, pyTruthy]
  · intro q h
    simp [pyOr, pyTruthy, limpiar_valor, h]
  · intro n h
    simp [pyOr, pyTruthy, limpiar_valor, h]

/-- Witness for C8 at concrete inputs: an unparseable amount string, a
NaN amount cell, and a nonzero parsed amount. -/
theorem C8_amount_normalization_witness :
    normalizeAmountCell (.str "abc") = .float .nan
    ∧ (is_amount_empty [("AMOUNT", PyVal.float PyFloat.nan)] = true
        ∧ amount_final_of [("AMOUNT", PyVal.float PyFloat.nan)] = .int 0)
    ∧ pyOr (limpiar_valor (.float (.val (mkRat 5 2)))) (.int 0) = .float (.val (mkRat 5 2)) :=
  ⟨C8_amount_normalization.1 "abc" rfl,
   C8_amount_normalization.2.1 [("AMOUNT", PyVal.float PyFloat.nan)] rfl,
   C8_amount_normalization.2.2.1 (mkRat 5 2) (by decide)⟩

theorem sweepHits_iff (brand : String) (t : Nat) (r : Record) :
    sweepHits brand t r = true
      ↔ (r.brand = brand ∧ r.status = "ALREADY FOLLOW UP" ∧ r.updated_at < t) := by
  simp [sweepHits, Bool.and_eq_true, and_assoc]

theorem mem_processSheet_updated_at (brand : String) (values : List (List String)) (now : Nat)
    (rec : Record) (h : rec ∈ processSheet brand values now) : rec.updated_at = now := by
  cases values with
  | nil => simp [processSheet] at h
  | cons hd tl =>
      rw [processSheet] at h
      split at h
      · simp at h
      · split at h
        · simp at h
        · exact mem_process_rows_go_updated_at brand now _ [] [] rec h

/-- C3: `storeSweep` (the conditional update issued after a successful
upsert, with `cycle_start_time` captured at main.py line 76 before the
fetch) leaves the store's length unchanged and rewrites position `i`
exactly when the stored record has the sweep's partition, the
pending-sentinel status `ALREADY FOLLOW UP`, and `updated_at` strictly
before `cycle_start_time` — in which case only its status becomes
`CLEARED_AUTO`; and since every record built this cycle carries
`updated_at = now ≥ cycle_start_time`, no record upserted during the
cycle is ever swept. -/
theorem C3_sweep_boundary (brand : String) (t : Nat) (store : List Record)
    (i : Nat) (r : Record) (h : store[i]? = some r)
    (values : List (List String)) (now : Nat) (hcycle : t ≤ now) :
    (storeSweep brand t store).length = store.length
    ∧ (storeSweep brand t store)[i]?
        = some (if r.brand = brand ∧ r.status = "ALREADY FOLLOW UP" ∧ r.updated_at < t
                then { r with status := "CLEARED_AUTO" } else r)
    ∧ (∀ rec ∈ processSheet brand values now, sweepHits brand t rec = false) := by
  refine ⟨by simp [storeSweep], ?_, ?_⟩
  · rw [storeSweep, List.getElem?_map, h]
    exact congrArg some (if_congr (sweepHits_iff brand t r) rfl rfl)
  · intro rec hrec
    have hup : rec.updated_at = now := mem_processSheet_updated_at brand values now rec hrec
    have hnlt : ¬ (now < t) := Nat.not_lt.mpr hcycle
    simp [sweepHits, hup, hnlt]

/-- A stored pending record of partition M1 last refreshed at time 99. -/
def c3Old : Record :=
  { id := "k1", deposit_id := "1", brand := "M1", username := "u", amount := .int 5
    status := "ALREADY FOLLOW UP", deposit_date_user := "", date_posted_unix := .none
    date_posted_iso := .none, pg_assign := "", raw_json := [], updated_at := 99 }

/-- Witness for C3 with cycle start 100: the stored record at index 0 is
refreshed strictly before the cycle start and is swept. -/
theorem C3_sweep_boundary_witness :
    (storeSweep "M1" 100 [c3Old]).length = [c3Old].length
    ∧ (storeSweep "M1" 100 [c3Old])[0]?
        = some (if c3Old.brand = "M1" ∧ c3Old.status = "ALREADY FOLLOW UP" ∧ c3Old.updated_at < 100
                then { c3Old with status := "CLEARED_AUTO" } else c3Old)
    ∧ (∀ rec ∈ processSheet "M1" [["USERNAME"]] 101, sweepHits "M1" 100 rec = false) :=
  C3_sweep_boundary "M1" 100 [c3Old] 0 c3Old rfl [["USERNAME"]] 101 (by decide)

/-- C6: when the shared state says a cycle is `Running`, a sync request
is a no-op — `run_sync_process` returns the state, store and effect list
untouched (no fetch, upsert or sweep), and the trigger endpoint never
enqueues a cycle. -/
theorem C6_running_guard (env : SyncEnv) (st : CycleState) (cycleStart now : Nat)
    (store : List Record) (secret cronSecret : Option String)
    (h : st.status = "Running") :
    run_sync_process env st cycleStart now store = (st, store, [])
    ∧ trigger_sync secret cronSecret st ≠ .enqueued := by
  constructor
  · simp [run_sync_process, h]
  · intro hcontra
    unfold trigger_sync at hcontra
    split at hcontra
    · exact TriggerOutcome.noConfusion hcontra
    · split at hcontra
      · exact TriggerOutcome.noConfusion hcontra
      · rename_i hcond
        exact hcond (by simp [h])

/-- A shared state currently marked Running. -/
def c6State : CycleState := { status := "Running", last_run := "x", records_processed := 2 }

/-- An environment where everything would succeed. -/
def c6Env : SyncEnv :=
  { credentialsExist := true, supabaseConfigured := true, fetchOk := true, valueRanges := [] }

/-- Witness for C6 at a concrete Running state. -/
theorem C6_running_guard_witness :
    run_sync_process c6Env c6State 0 1 [] = (c6State, [], [])
    ∧ trigger_sync (some "s") (some "s") c6State ≠ .enqueued :=
  C6_running_guard c6Env c6State 0 1 [] (some "s") (some "s") rfl

/-- C9: with no `CRON_SECRET` configured (None) and no secret parameter
supplied (None), the inequality check passes (None equals None), so the
request is not rejected with 401 and — whenever no cycle is marked
running — a sync cycle is enqueued. -/
theorem C9_unset_secret_allows_trigger (st : CycleState) (h : st.status ≠ "Running") :
    trigger_sync Option.none Option.none st = .enqueued := by
  simp [trigger_sync, h]

/-- Witness for C9 at the startup state (Idle). -/
theorem C9_unset_secret_allows_trigger_witness :
    trigger_sync Option.none Option.none initialCycleState = .enqueued :=
  C9_unset_secret_allows_trigger initialCycleState (by decide)

/-- C10: a partition whose cycle yields an empty upload batch (in
particular any sheet with fewer than two fetched value rows) issues
neither the upsert nor the sweep — the store is returned unchanged with
no effects, so stale pending records of that partition keep their status
that cycle. -/
theorem C10_empty_batch_no_ops (brand : String) (values : List (List String)) (now t : Nat)
    (store : List Record) :
    (processSheet brand values now = [] → perSheetStore brand values now t store = (store, []))
    ∧ (values.length < 2 → processSheet brand values now = []) := by
  constructor
  · intro h
    simp [perSheetStore, h]
  · intro h
    cases values with
    | nil => rfl
    | cons hd tl =>
        rw [processSheet]
        have htl : tl.length < 1 := by simpa using Nat.lt_of_succ_lt_succ h
        rw [if_pos htl]

/-- Witness for C10: a one-row sheet leaves a store holding a stale
pending record untouched, with no effects issued. -/
theorem C10_empty_batch_no_ops_witness :
    perSheetStore "M1" [["USERNAME"]] 5 9 [c3Old] = ([c3Old], [])
    ∧ processSheet "M1" [["USERNAME"]] 5 = [] :=
  ⟨(C10_empty_batch_no_ops "M1" [["USERNAME"]] 5 9 [c3Old]).1 rfl,
   (C10_empty_batch_no_ops "M1" [["USERNAME"]] 5 9 [c3Old]).2 (by decide)⟩
